import Mathlib

/-!
Verification development for the coinbasechain header-synchronization core.

The development shallowly embeds two kinds of material:

* the Python sources under `src/tools/compare_protocols.py` and
  `src/test/functional/test_framework/test_node.py`, translated function by
  function; and
* the header-store / chain-selector / misbehavior-scorer / sync-state-machine
  core, whose implementation (`src/sync/header_sync.cpp`,
  `src/sync/peer_manager.cpp`, chainstate and validation modules) is not part
  of the provided sources; those parts are modelled from the specification
  text, as marked in each doc comment.

Machine integers do not overflow in any of the modelled quantities (heights,
scores, work accumulators are unbounded in the spec), so they are embedded as
`Nat`/`Int` directly.
-/

namespace CoinbaseChain

/-! ## Embedding of `src/tools/compare_protocols.py` -/

/-- A (field name, byte width) entry as listed by `compare_block_header`. -/
structure FieldSpec where
  fieldName : String
  width : Nat
deriving DecidableEq, Repr

/-- The `bitcoin.fields` list of `ProtocolComparator.compare_block_header`. -/
def bitcoin_header_fields : List FieldSpec :=
  [⟨"nVersion", 4⟩, ⟨"hashPrevBlock", 32⟩, ⟨"hashMerkleRoot", 32⟩,
   ⟨"nTime", 4⟩, ⟨"nBits", 4⟩, ⟨"nNonce", 4⟩]

/-- The `bitcoin.size` value of `ProtocolComparator.compare_block_header`. -/
def bitcoin_header_size : Nat := 80

/-- The `coinbasechain.fields` list of `ProtocolComparator.compare_block_header`. -/
def coinbasechain_header_fields : List FieldSpec :=
  [⟨"nVersion", 4⟩, ⟨"hashPrevBlock", 32⟩, ⟨"minerAddress", 20⟩,
   ⟨"nTime", 4⟩, ⟨"nBits", 4⟩, ⟨"nNonce", 4⟩, ⟨"hashRandomX", 20⟩]

/-- The `coinbasechain.size` value of `ProtocolComparator.compare_block_header`. -/
def coinbasechain_header_size : Nat := 100

/-- Total serialized width of a field listing: the sum of the field widths. -/
def totalWidth (fs : List FieldSpec) : Nat := (fs.map (·.width)).sum

/-- The `checks` list of `ProtocolComparator.calculate_compatibility_score`. -/
def compatibility_checks : List (String × Bool) :=
  [("Message Header", true), ("Block Header", false), ("Serialization", true),
   ("Network Magic", false), ("Port", false), ("Time Rules", true),
   ("Version Message", true), ("Checksum", true), ("Network Address", true),
   ("PoW", false), ("Block Time", false), ("Difficulty", false)]

/-- `ProtocolComparator.calculate_compatibility_score`:
`(matches / total) * 100` where `matches` counts the checks marked compatible.
Python float arithmetic on these small values is exact, so ℚ is faithful. -/
def calculate_compatibility_score : ℚ :=
  (((compatibility_checks.filter (fun c => c.2)).length : ℚ) /
    (compatibility_checks.length : ℚ)) * 100

/-- The assessment branch of `ProtocolComparator.run_full_comparison`
(`if score > 80 ... elif score > 50 ... else ...`). -/
def assessmentOf (score : ℚ) : String :=
  if 80 < score then "Assessment: High structural compatibility"
  else if 50 < score then "Assessment: Moderate compatibility"
  else "Assessment: Low compatibility (intentionally separate)"

/-! ## Embedding of `TestNode.rpc` from
`src/test/functional/test_framework/test_node.py` -/

/-- A parsed JSON value, as produced by Python's `json.loads`.  Only the shape
matters here: the point is that it is a structured value distinct from the raw
`stdout` string. -/
inductive JsonValue where
  | null : JsonValue
  | bool (b : Bool) : JsonValue
  | num (n : Int) : JsonValue
  | str (s : String) : JsonValue
  | arr (elems : List JsonValue) : JsonValue
  | obj (fields : List (String × JsonValue)) : JsonValue

/-- The result of `subprocess.run(args, capture_output=True, text=True)`. -/
structure CompletedProcess where
  returncode : Int
  procStdout : String
  procStderr : String
deriving DecidableEq, Repr

/-- `TestNode.rpc` (src/test/functional/test_framework/test_node.py:168-202),
after the subprocess has completed:  a nonzero return code raises; otherwise
`json.loads(result.stdout)` is attempted, a parse failure raises, and only a
successfully parsed value is returned.  `jsonLoads` stands for Python's
`json.loads`, returning `none` on `JSONDecodeError`.  Raised exceptions are
embedded as `Except.error` carrying the message. -/
def TestNode_rpc (jsonLoads : String → Option JsonValue)
    (method : String) (result : CompletedProcess) : Except String JsonValue :=
  if result.returncode ≠ 0 then
    .error ("RPC " ++ method ++ " failed: " ++ result.procStderr)
  else
    match jsonLoads result.procStdout with
    | some v => .ok v
    | none => .error ("RPC " ++ method ++ " returned invalid JSON:\n" ++
        "Output: " ++ result.procStdout)

/-! ## Spec-modelled core: Header Store, Chain Selector, Misbehavior Scorer,
PoW Validator, Header Sync State Machine.

The implementation of these components (`src/sync/header_sync.cpp`,
`src/sync/peer_manager.cpp`, chainstate/validation modules) is not among the
provided sources; only their functional tests are.  The definitions below are
therefore modelled from the specification text, section by section. -/

/-- Modelled from the spec: validity status of a stored header (spec section 3);
the chainstate implementation is missing from the sources. -/
inductive ValidityStatus where
  | Unknown
  | ValidatedPoW
  | Invalid
deriving DecidableEq, Repr

/-- Modelled from the spec: failure codes of the Proof-of-Work Validator
(spec section 4.1); the validation module is missing from the sources. -/
inductive ValError where
  | BadDifficultyBits
  | InvalidPoW
  | TimeTooOld
  | TimeTooNew
deriving DecidableEq, Repr

/-- Modelled from the spec: a HeaderRecord of the Header Store (spec section 3).
32-byte hashes are abstracted as distinct natural numbers; `chainWork` is the
cumulative-work accumulator; `target` is the decoded difficulty target and
`powHash` the proof-of-work hash read as a big-endian integer. -/
structure HeaderRecord where
  hash : Nat
  prev : Nat
  height : Nat
  chainWork : Nat
  time : Nat := 0
  nonce : Nat := 0
  minerAddress : Nat := 0
  powHash : Nat := 0
  target : Nat := 0
  status : ValidityStatus := .Unknown
deriving DecidableEq, Repr

/-- Modelled from the spec: the Header Store (spec sections 3 and 4.2).
`records` is kept in insertion order (first-seen first); the tip set is derived
from it (a tip is a record lacking any known child), and exactly one hash is
marked active. -/
structure HeaderStore where
  records : List HeaderRecord
  activeTip : Nat
  suspiciousReorgDepth : Option Nat
deriving DecidableEq, Repr

/-- Look a record up by hash. -/
def findRecord (s : HeaderStore) (h : Nat) : Option HeaderRecord :=
  s.records.find? (fun r => r.hash == h)

/-- Whether a hash is already present in the store. -/
def containsHash (s : HeaderStore) (h : Nat) : Bool :=
  (findRecord s h).isSome

/-- Whether some record in the list names `h` as its parent. -/
def hasChild (records : List HeaderRecord) (h : Nat) : Bool :=
  records.any (fun r => r.prev == h)

/-- The derived tip set of a record list: records lacking any known child,
in first-seen order (spec section 3, ChainTip). -/
def tipsOf (records : List HeaderRecord) : List HeaderRecord :=
  records.filter (fun r => !(hasChild records r.hash))

/-- The tip set of a store. -/
def tips (s : HeaderStore) : List HeaderRecord := tipsOf s.records

/-- Modelled from the spec: the candidate best tip = maximum cumulative work
among all tips, ties broken first-seen (spec section 4.2): a later tip replaces
the running best only on strictly greater work. -/
def bestTip (s : HeaderStore) : Option HeaderRecord :=
  (tips s).foldl
    (fun acc t =>
      match acc with
      | none => some t
      | some b => if b.chainWork < t.chainWork then some t else some b)
    none

/-- Hashes of the chain from `h` back to genesis (height 0), fuel-bounded. -/
def ancestorHashes (s : HeaderStore) : Nat → Nat → List Nat
  | 0, h => [h]
  | Nat.succ fuel, h =>
    h :: (match findRecord s h with
          | some r => if r.height = 0 then [] else ancestorHashes s fuel r.prev
          | none => [])

/-- The full ancestor chain of `h` in `s` (fuel = number of records). -/
def chainOf (s : HeaderStore) (h : Nat) : List Nat :=
  ancestorHashes s s.records.length h

/-- Modelled from the spec: the reorg depth = number of blocks on the current
active chain that would need to be disconnected to reach the shared ancestor
with the candidate (spec section 4.2). -/
def reorgDepth (s : HeaderStore) (cand : Nat) : Nat :=
  let candAnc := chainOf s cand
  ((chainOf s s.activeTip).filter (fun x => !(candAnc.contains x))).length

/-- Modelled from the spec: the Chain Selector (spec section 4.2).  After an
insertion it recomputes the candidate best tip; if the candidate differs from
the active tip and a configured `suspiciousReorgDepth` threshold N is set with
required disconnection length ≥ N, the reorg is refused (store unchanged);
otherwise the candidate becomes the new active tip. -/
def applySelector (s : HeaderStore) : HeaderStore :=
  match bestTip s with
  | none => s
  | some cand =>
    if cand.hash = s.activeTip then s
    else
      match s.suspiciousReorgDepth with
      | some n =>
        if n ≤ reorgDepth s cand.hash then s
        else { s with activeTip := cand.hash }
      | none => { s with activeTip := cand.hash }

/-- The non-active fork candidates: tips other than the active tip. -/
def forkCandidates (s : HeaderStore) : List HeaderRecord :=
  (tips s).filter (fun r => r.hash != s.activeTip)

/-- Height of the active tip's record, if present. -/
def activeTipHeight (s : HeaderStore) : Option Nat :=
  (findRecord s s.activeTip).map (·.height)

/-! ### Misbehavior Scorer / Peer Manager (spec section 4.4) -/

/-- Modelled from the spec: per-connection peer state of the Misbehavior
Scorer (spec sections 3 and 4.4); `peer_manager.cpp` is missing from the
sources.  `noban` covers both manual connections and the no-ban permission. -/
structure Peer where
  peerId : Nat
  score : Nat
  noban : Bool
  disconnected : Bool
  discouraged : Bool
deriving DecidableEq, Repr

/-- A freshly connected peer: score 0, not disconnected, not discouraged. -/
def initPeer (pid : Nat) (noban : Bool) : Peer :=
  ⟨pid, 0, noban, false, false⟩

/-- Modelled from the spec: `Misbehaving(peerId, amount, reason)` adds
`amount` to the score; when the cumulative score reaches or exceeds 100 the
connection is closed and the address discouraged, except for manual/no-ban
peers, which are exempt from automatic disconnect and discouragement
(spec section 4.4). -/
def misbehaving (p : Peer) (amount : Nat) : Peer :=
  if p.noban then { p with score := p.score + amount }
  else if 100 ≤ p.score + amount then
    { p with score := p.score + amount, disconnected := true, discouraged := true }
  else { p with score := p.score + amount }

/-- A sequence of `Misbehaving` calls against one peer. -/
def runMisbehaving (p : Peer) (amounts : List Nat) : Peer :=
  amounts.foldl misbehaving p

/-! ### Proof-of-Work Validator (spec section 4.1) -/

/-- Insert into a sorted list, keeping it sorted. -/
def insertSorted (x : Nat) : List Nat → List Nat
  | [] => [x]
  | y :: ys => if x ≤ y then x :: y :: ys else y :: insertSorted x ys

/-- Insertion sort of a list of naturals. -/
def sortNat (l : List Nat) : List Nat := l.foldr insertSorted []

/-- Median of the given ancestor timestamps: middle element of the sorted
list (median-time-past). -/
def medianTimePast (ts : List Nat) : Nat :=
  (sortNat ts).getD (ts.length / 2) 0

/-- The fixed future-time tolerance: 2 hours (spec section 4.1, check 4). -/
def TWO_HOURS : Nat := 7200

/-- Modelled from the spec: ancestor context of the Proof-of-Work Validator
(spec section 4.1): the expected target computed by the difficulty module
(an external collaborator, spec section 6), the last N ancestor timestamps,
and the injectable current time (spec section 5). -/
structure PowContext where
  expectedTarget : Nat
  ancestorTimes : List Nat
  now : Nat
deriving DecidableEq, Repr

/-- Modelled from the spec: the Proof-of-Work Validator (spec section 4.1), a
pure function of the header plus its ancestor context applying four checks in
order and failing with the first violated check's code. -/
def checkProofOfWork (ctx : PowContext) (h : HeaderRecord) : Option ValError :=
  if h.target ≠ ctx.expectedTarget then some .BadDifficultyBits
  else if h.target < h.powHash then some .InvalidPoW
  else if h.time ≤ medianTimePast ctx.ancestorTimes then some .TimeTooOld
  else if ctx.now + TWO_HOURS < h.time then some .TimeTooNew
  else none

/-! ### AddHeader (spec section 4.2) -/

/-- Result of `AddHeader` (spec section 4.2). -/
inductive AddResult where
  | Accepted
  | Duplicate
  | OrphanPending
  | Rejected (reason : ValError)
deriving DecidableEq, Repr

/-- Modelled from the spec: node-level configuration of the core.
`validate` is the PoW Validator applied with the header's ancestor context
(`checkProofOfWork` instantiated by the caller); `workOf` maps a difficulty
target to its work contribution (the difficulty module is external, spec
section 6); `orphanCapacity` bounds the orphan buffer. -/
structure CoreConfig where
  validate : HeaderRecord → Option ValError
  workOf : Nat → Nat
  orphanCapacity : Nat

/-- Modelled from the spec: node state around the Header Store: the store, the
bounded orphan buffer (oldest first; the spec keys it per peer, which the
claims here never distinguish), and the peer set of the Misbehavior Scorer. -/
structure NodeState where
  store : HeaderStore
  orphans : List (Nat × HeaderRecord)
  peers : List Peer
deriving DecidableEq, Repr

/-- Append an entry to a bounded buffer, dropping the oldest entries when the
capacity is exceeded (spec section 4.2). -/
def pushBounded (cap : Nat) (buf : List (Nat × HeaderRecord))
    (entry : Nat × HeaderRecord) : List (Nat × HeaderRecord) :=
  let grown := buf ++ [entry]
  grown.drop (grown.length - cap)

/-- Modelled from the spec: `AddHeader` (spec section 4.2).
Hash already present → `Duplicate`, no state change.  Previous hash unknown →
buffered as an orphan.  Otherwise the validator runs; a failure is `Rejected`
and forwarded to the Misbehavior Scorer by the caller (`onReject`); on success
the record is inserted with cumulative work = parent's work + work(target),
and the Chain Selector re-evaluates the active tip. -/
def addHeader (cfg : CoreConfig) (onReject : ValError → List Peer → List Peer)
    (ns : NodeState) (h : HeaderRecord) : AddResult × NodeState :=
  if containsHash ns.store h.hash then (.Duplicate, ns)
  else
    match findRecord ns.store h.prev with
    | none =>
      (.OrphanPending,
       { ns with orphans := pushBounded cfg.orphanCapacity ns.orphans (h.prev, h) })
    | some parent =>
      match cfg.validate h with
      | some e => (.Rejected e, { ns with peers := onReject e ns.peers })
      | none =>
        let rcd := { h with
          height := parent.height + 1,
          chainWork := parent.chainWork + cfg.workOf h.target,
          status := ValidityStatus.ValidatedPoW }
        let grown := { ns.store with records := ns.store.records ++ [rcd] }
        (.Accepted, { ns with store := applySelector grown })

/-- Feed a list of headers through `addHeader` in order. -/
def addHeaders (cfg : CoreConfig) (onReject : ValError → List Peer → List Peer)
    (ns : NodeState) (hs : List HeaderRecord) : NodeState :=
  hs.foldl (fun s h => (addHeader cfg onReject s h).2) ns

/-! ### Persistence Layer (spec sections 2 and 6) -/

/-- Modelled from the spec: the persisted snapshot: total header count and,
per header, its full record (hash, previous hash, height, cumulative work),
plus the active tip, sufficient to reconstruct the entire DAG, the full tip
set, and the active tip on reload (spec section 6). -/
structure ChainSnapshot where
  block_count : Nat
  blocks : List HeaderRecord
  active_tip : Nat
deriving DecidableEq, Repr

/-- Persist the full Header Store state — not only the winning branch. -/
def saveSnapshot (s : HeaderStore) : ChainSnapshot :=
  ⟨s.records.length, s.records, s.activeTip⟩

/-- Restore a store from a snapshot after a restart; the threshold
configuration comes from the command line, not the snapshot. -/
def loadSnapshot (depthCfg : Option Nat) (snap : ChainSnapshot) : HeaderStore :=
  ⟨snap.blocks, snap.active_tip, depthCfg⟩

/-! ### Header Sync State Machine (spec section 4.3) -/

/-- Sync phases of the per-peer state machine (spec section 4.3). -/
inductive SyncPhase where
  | Idle
  | AwaitingHeaders
  | ReceivingHeaders
  | Synced
  | Disconnected
deriving DecidableEq, Repr

/-- `protocol::MAX_HEADERS_COUNT` (spec section 4.3 and
src/test/functional/p2p_dos_headers.py line 110). -/
def MAX_HEADERS_COUNT : Nat := 2000

/-- Outcome of processing one received header batch. -/
structure BatchResult where
  phase : SyncPhase
  penalty : Option (String × Nat)
  discarded : Bool
  continuationAnchor : Option Nat
  disconnect : Bool
deriving DecidableEq, Repr

/-- Batch continuity (spec section 4.3): each header's previous hash equals
the hash of the preceding header, the first chaining from the anchor. -/
def continuousFrom (anchor : Nat) : List HeaderRecord → Bool
  | [] => true
  | h :: rest => h.prev == anchor && continuousFrom h.hash rest

/-- The last accepted hash of a batch (the anchor if the batch is empty). -/
def lastHashFrom (anchor : Nat) (batch : List HeaderRecord) : Nat :=
  batch.foldl (fun _ h => h.hash) anchor

/-- Modelled from the spec: batch handling of the Header Sync State Machine
(spec section 4.3).  Oversized batch → `oversized-headers` penalty 20,
discarded, back to `Idle`.  Continuity break → `non-continuous-headers`
penalty 20, discarded.  First invalid-pow rejection → `invalid-pow` penalty
100, discarded, connection terminated.  Otherwise a batch exactly at the
maximum size triggers an immediate continuation request anchored at the last
accepted hash; a smaller batch transitions to `Synced`. -/
def handleHeadersBatch (maxCount : Nat) (validate : HeaderRecord → Option ValError)
    (anchor : Nat) (batch : List HeaderRecord) : BatchResult :=
  if maxCount < batch.length then
    ⟨.Idle, some ("oversized-headers", 20), true, none, false⟩
  else if !(continuousFrom anchor batch) then
    ⟨.Idle, some ("non-continuous-headers", 20), true, none, false⟩
  else if batch.any (fun h => decide (validate h = some ValError.InvalidPoW)) then
    ⟨.Disconnected, some ("invalid-pow", 100), true, none, true⟩
  else if batch.length = maxCount then
    ⟨.ReceivingHeaders, none, false, some (lastHashFrom anchor batch), false⟩
  else
    ⟨.Synced, none, false, none, false⟩

/-! ### Concrete scenarios from the functional tests -/

/-- The genesis hash of the concrete scenarios (an arbitrary distinct value). -/
def genesisHash : Nat := 9

/-- The genesis record: height 0, cumulative work 0. -/
def genesisRecord : HeaderRecord :=
  { hash := genesisHash, prev := 0, height := 0, chainWork := 0 }

/-- A straight chain of `len` headers on top of a parent: block `i` (1-based)
has hash `base + i`, each block contributing one unit of work (constant
regtest difficulty). -/
def mkChain (base parentHash parentHeight parentWork len : Nat) : List HeaderRecord :=
  (List.range len).map (fun i =>
    { hash := base + i + 1,
      prev := if i = 0 then parentHash else base + i,
      height := parentHeight + i + 1,
      chainWork := parentWork + i + 1 })

/-- The threshold-gated reorg scenario (spec section 8 and
src/test/functional/feature_suspicious_reorg.py): a shared chain to height 10,
an active branch to height 15, and a competing branch to height 20, so that
switching to the competitor disconnects exactly 5 blocks. -/
def reorgStoreRecords : List HeaderRecord :=
  genesisRecord ::
    (mkChain 100 genesisHash 0 0 10 ++
     mkChain 200 110 10 10 5 ++
     mkChain 300 110 10 10 10)

/-- The reorg-scenario store with active tip at height 15 (hash 205) and a
configurable suspicious-reorg threshold. -/
def reorgStore (depthCfg : Option Nat) : HeaderStore :=
  ⟨reorgStoreRecords, 205, depthCfg⟩

/-- Regtest-style configuration: all headers validate (the scenarios replay
valid chains), every block contributes one unit of work. -/
def regtestConfig : CoreConfig :=
  ⟨fun _ => none, fun _ => 1, 100⟩

/-- The reject hook used in scenarios where nothing is rejected. -/
def onRejectNop : ValError → List Peer → List Peer := fun _ ps => ps

/-- The 5-block chain of the fork-resolution test (hashes 401-405). -/
def chain5 : List HeaderRecord := mkChain 400 genesisHash 0 0 5

/-- The 10-block chain of the fork-resolution test (hashes 501-510). -/
def chain10 : List HeaderRecord := mkChain 500 genesisHash 0 0 10

/-- The 15-block chain of the fork-resolution test (hashes 601-615). -/
def chain15 : List HeaderRecord := mkChain 600 genesisHash 0 0 15

/-- A node seeded with one chain: its store holds genesis plus the chain, the
chain's tip is active, and the default conservative threshold (100) is set. -/
def initialNode (chain : List HeaderRecord) (tip : Nat) : NodeState :=
  ⟨⟨genesisRecord :: chain, tip, some 100⟩, [], []⟩

/-- Node0 (seeded height 5) after receiving both other chains. -/
def node0Final : NodeState :=
  addHeaders regtestConfig onRejectNop (initialNode chain5 405) (chain10 ++ chain15)

/-- Node1 (seeded height 10) after receiving both other chains. -/
def node1Final : NodeState :=
  addHeaders regtestConfig onRejectNop (initialNode chain10 510) (chain5 ++ chain15)

/-- Node2 (seeded height 15) after receiving both other chains. -/
def node2Final : NodeState :=
  addHeaders regtestConfig onRejectNop (initialNode chain15 615) (chain5 ++ chain10)

/-- The hash of the height-15 tip every node must converge to. -/
def tip15Hash : Nat := 615

/-! ## Helper lemmas -/

/-- `Misbehaving` always adds the amount to the score, in every branch. -/
lemma misbehaving_score (p : Peer) (a : Nat) : (misbehaving p a).score = p.score + a := by
  unfold misbehaving
  split_ifs <;> rfl

/-- `Misbehaving` never changes the exemption flag. -/
lemma misbehaving_noban (p : Peer) (a : Nat) : (misbehaving p a).noban = p.noban := by
  unfold misbehaving
  split_ifs <;> rfl

/-- Unfolding one `Misbehaving` call of a sequence. -/
lemma runMisbehaving_cons (p : Peer) (a : Nat) (l : List Nat) :
    runMisbehaving p (a :: l) = runMisbehaving (misbehaving p a) l := rfl

/-- A sequence of `Misbehaving` calls accumulates the sum of the amounts. -/
lemma runMisbehaving_score (amounts : List Nat) :
    ∀ p : Peer, (runMisbehaving p amounts).score = p.score + amounts.sum := by
  induction amounts with
  | nil => intro p; simp [runMisbehaving]
  | cons a l ih =>
    intro p
    rw [runMisbehaving_cons, ih, misbehaving_score, List.sum_cons]
    omega

/-- For a non-exempt peer, one `Misbehaving` call closes the connection and
discourages the address exactly when it was already closed or the new score
reaches 100. -/
lemma misbehaving_flags (p : Peer) (a : Nat) (hnb : p.noban = false) :
    ((misbehaving p a).disconnected = true ↔
      (p.disconnected = true ∨ 100 ≤ p.score + a)) ∧
    ((misbehaving p a).discouraged = true ↔
      (p.discouraged = true ∨ 100 ≤ p.score + a)) := by
  unfold misbehaving
  rw [hnb]
  by_cases h : 100 ≤ p.score + a <;> simp [h]

/-- For a non-exempt peer, a sequence of `Misbehaving` calls leaves the
connection closed (and the address discouraged) exactly when it already was,
or some call was made and the accumulated score reaches 100 (the score being
monotone, the total crosses 100 exactly when some prefix first does). -/
lemma runMisbehaving_flags (amounts : List Nat) :
    ∀ p : Peer, p.noban = false →
      (((runMisbehaving p amounts).disconnected = true ↔
         (p.disconnected = true ∨ (amounts ≠ [] ∧ 100 ≤ p.score + amounts.sum))) ∧
       ((runMisbehaving p amounts).discouraged = true ↔
         (p.discouraged = true ∨ (amounts ≠ [] ∧ 100 ≤ p.score + amounts.sum)))) := by
  induction amounts with
  | nil => intro p _; simp [runMisbehaving]
  | cons a l ih =>
    intro p hnb
    have hnb' : (misbehaving p a).noban = false := by rw [misbehaving_noban]; exact hnb
    obtain ⟨ihd, ihg⟩ := ih (misbehaving p a) hnb'
    rw [misbehaving_score] at ihd ihg
    obtain ⟨hfd, hfg⟩ := misbehaving_flags p a hnb
    rw [runMisbehaving_cons]
    constructor
    · rw [ihd, hfd]
      by_cases hd : p.disconnected = true <;>
        (cases l <;> simp_all <;> omega)
    · rw [ihg, hfg]
      by_cases hg : p.discouraged = true <;>
        (cases l <;> simp_all <;> omega)

/-- Claim C2 (amended to peers without the manual/no-ban exemption): the
misbehavior score starts at 0, every `Misbehaving` call adds its amount, and
after any nonempty call sequence the connection is closed and the address
discouraged exactly when the cumulative score reaches or exceeds 100 — since
the score is monotone, exactly when it first does so. -/
theorem misbehaving_threshold_spec (pid : Nat) (amounts : List Nat) (hne : amounts ≠ []) :
    (initPeer pid false).score = 0 ∧
    (runMisbehaving (initPeer pid false) amounts).score = amounts.sum ∧
    ((runMisbehaving (initPeer pid false) amounts).disconnected = true ↔
      100 ≤ amounts.sum) ∧
    ((runMisbehaving (initPeer pid false) amounts).discouraged = true ↔
      100 ≤ amounts.sum) := by
  obtain ⟨hd, hg⟩ := runMisbehaving_flags amounts (initPeer pid false) rfl
  refine ⟨rfl, ?_, ?_, ?_⟩
  · rw [runMisbehaving_score]; simp [initPeer]
  · rw [hd]; simp [initPeer, hne]
  · rw [hg]; simp [initPeer, hne]

/-- Claim C2 witness: five 20-point non-continuous-header violations close the
connection at the fifth and never earlier; a single 100-point invalid-pow
violation closes it immediately. -/
theorem misbehaving_threshold_witness :
    (runMisbehaving (initPeer 7 false) (List.replicate 4 20)).disconnected = false ∧
    (runMisbehaving (initPeer 7 false) (List.replicate 5 20)).disconnected = true ∧
    (runMisbehaving (initPeer 7 false) (List.replicate 5 20)).discouraged = true ∧
    (runMisbehaving (initPeer 7 false) [100]).disconnected = true := by
  have h4 := misbehaving_threshold_spec 7 (List.replicate 4 20) (by decide)
  have h5 := misbehaving_threshold_spec 7 (List.replicate 5 20) (by decide)
  have h1 := misbehaving_threshold_spec 7 [100] (by decide)
  refine ⟨?_, ?_, ?_, ?_⟩
  · exact Bool.eq_false_iff.mpr
      (fun hb => absurd (h4.2.2.1.mp hb) (by decide))
  · exact h5.2.2.1.mpr (by decide)
  · exact h5.2.2.2.mpr (by decide)
  · exact h1.2.2.1.mpr (by decide)

/-- Claim C2 counterexample: a manual/no-ban peer whose score reaches 100 is
neither disconnected nor discouraged, so for such connections closing does not
happen "exactly when the cumulative score first reaches or exceeds 100". -/
theorem misbehaving_noban_counterexample :
    (runMisbehaving (initPeer 3 true) [100]).score = 100 ∧
    (runMisbehaving (initPeer 3 true) [100]).disconnected = false ∧
    (runMisbehaving (initPeer 3 true) [100]).discouraged = false := by decide

/-- Claim C8 counterexample: the coinbasechain header listing of
`compare_block_header` records a total size of 100 bytes, yet its listed field
widths sum to 88, so the recorded total does not equal the sum of the listed
widths. -/
theorem coinbase_header_width_counterexample :
    totalWidth coinbasechain_header_fields = 88 ∧
    coinbasechain_header_size = 100 ∧
    totalWidth coinbasechain_header_fields ≠ coinbasechain_header_size := by decide

/-- Claim C8 (amended): the header wire encoding is recorded as exactly 100
bytes with the fields version(4), prevHash(32), minerAddress(20), time(4),
bits(4), nonce(4), randomXProofHash(20); those listed widths sum to 88, not to
the recorded 100 (a 32-byte randomX hash would reconcile them), whereas the
bitcoin listing's widths do sum to its recorded 80. -/
theorem coinbase_header_sizes :
    coinbasechain_header_size = 100 ∧
    totalWidth coinbasechain_header_fields = 4 + 32 + 20 + 4 + 4 + 4 + 20 ∧
    totalWidth coinbasechain_header_fields = 88 ∧
    totalWidth bitcoin_header_fields = bitcoin_header_size := by decide

/-- Claim C9: `calculate_compatibility_score` always returns exactly 50 (6 of
its 12 fixed checks are marked compatible), and since 50 is not strictly
greater than 50, `run_full_comparison` always prints the low-compatibility
assessment. -/
theorem compatibility_score_fifty :
    calculate_compatibility_score = 50 ∧
    (compatibility_checks.filter (fun c => c.2)).length = 6 ∧
    compatibility_checks.length = 12 ∧
    ¬ (50 < calculate_compatibility_score) ∧
    assessmentOf calculate_compatibility_score =
      "Assessment: Low compatibility (intentionally separate)" := by
  have h : calculate_compatibility_score = 50 := by
    norm_num [calculate_compatibility_score, compatibility_checks]
  refine ⟨h, by decide, by decide, by rw [h]; norm_num, ?_⟩
  rw [assessmentOf, h]
  norm_num

/-- Claim C6: the Proof-of-Work Validator is a pure function of the header
plus its ancestor context applying exactly four checks in a fixed order and
failing with the first violated check's code: declared target vs expected
target (`BadDifficultyBits`), proof-of-work hash vs target (`InvalidPoW`),
timestamp strictly above the median of the ancestor timestamps (`TimeTooOld`),
timestamp at most current time plus 2 hours (`TimeTooNew`). -/
theorem checkProofOfWork_order_spec (ctx : PowContext) (h : HeaderRecord) :
    (checkProofOfWork ctx h = some ValError.BadDifficultyBits ↔
      h.target ≠ ctx.expectedTarget) ∧
    (checkProofOfWork ctx h = some ValError.InvalidPoW ↔
      h.target = ctx.expectedTarget ∧ h.target < h.powHash) ∧
    (checkProofOfWork ctx h = some ValError.TimeTooOld ↔
      h.target = ctx.expectedTarget ∧ h.powHash ≤ h.target ∧
      h.time ≤ medianTimePast ctx.ancestorTimes) ∧
    (checkProofOfWork ctx h = some ValError.TimeTooNew ↔
      h.target = ctx.expectedTarget ∧ h.powHash ≤ h.target ∧
      medianTimePast ctx.ancestorTimes < h.time ∧ ctx.now + TWO_HOURS < h.time) ∧
    (checkProofOfWork ctx h = none ↔
      h.target = ctx.expectedTarget ∧ h.powHash ≤ h.target ∧
      medianTimePast ctx.ancestorTimes < h.time ∧ h.time ≤ ctx.now + TWO_HOURS) := by
  unfold checkProofOfWork
  split_ifs with h1 h2 h3 h4 <;>
    refine ⟨?_, ?_, ?_, ?_, ?_⟩ <;> simp <;> omega

/-- The ancestor context of the validator witness: expected target 100, three
ancestor timestamps with median 5, current time 1000. -/
def powContextEx : PowContext := ⟨100, [7, 3, 5], 1000⟩

/-- The header of the validator witness: matching target, low pow hash,
timestamp above the median and within the future bound. -/
def powHeaderEx : HeaderRecord :=
  { hash := 1, prev := 9, height := 1, chainWork := 1,
    time := 6, powHash := 50, target := 100 }

/-- Claim C6 witness: on a concrete header passing all four checks the
validator reports no error. -/
theorem checkProofOfWork_order_witness :
    checkProofOfWork powContextEx powHeaderEx = none :=
  (checkProofOfWork_order_spec powContextEx powHeaderEx).2.2.2.2.mpr (by decide)

/-- Claim C7 (amended — a batch failing continuity or validation is instead
discarded with its own violation): every oversized batch, whatever its
contents, incurs the oversized-headers violation with penalty 20, is discarded
whole and returns the state to Idle; a within-size batch breaking continuity
is discarded with the non-continuous-headers violation (penalty 20); a
within-size continuous batch containing an invalid-pow header is discarded
with the invalid-pow violation (penalty 100) and the connection terminated;
otherwise a batch exactly at the maximum triggers an immediate continuation
request anchored at the last accepted hash, and a smaller batch (including
empty) transitions to Synced.  The five cases are exhaustive and pin the
check order: size first, then continuity, then validation, then the
full/short decision. -/
theorem handleHeadersBatch_size_spec (maxCount anchor : Nat)
    (validate : HeaderRecord → Option ValError) (batch : List HeaderRecord) :
    (maxCount < batch.length →
      handleHeadersBatch maxCount validate anchor batch =
        ⟨.Idle, some ("oversized-headers", 20), true, none, false⟩) ∧
    (batch.length ≤ maxCount → continuousFrom anchor batch = false →
      handleHeadersBatch maxCount validate anchor batch =
        ⟨.Idle, some ("non-continuous-headers", 20), true, none, false⟩) ∧
    (batch.length ≤ maxCount → continuousFrom anchor batch = true →
      batch.any (fun h => decide (validate h = some ValError.InvalidPoW)) = true →
      handleHeadersBatch maxCount validate anchor batch =
        ⟨.Disconnected, some ("invalid-pow", 100), true, none, true⟩) ∧
    (batch.length = maxCount → continuousFrom anchor batch = true →
      batch.any (fun h => decide (validate h = some ValError.InvalidPoW)) = false →
      handleHeadersBatch maxCount validate anchor batch =
        ⟨.ReceivingHeaders, none, false, some (lastHashFrom anchor batch), false⟩) ∧
    (batch.length < maxCount → continuousFrom anchor batch = true →
      batch.any (fun h => decide (validate h = some ValError.InvalidPoW)) = false →
      handleHeadersBatch maxCount validate anchor batch =
        ⟨.Synced, none, false, none, false⟩) := by
  unfold handleHeadersBatch
  refine ⟨fun hgt => ?_, fun hle hcont => ?_, fun hle hcont hbad => ?_,
    fun heq hcont hgood => ?_, fun hlt hcont hgood => ?_⟩
  · rw [if_pos hgt]
  · rw [if_neg (by omega), hcont]
    simp
  · rw [if_neg (by omega), hcont]
    simp [hbad]
  · rw [if_neg (by omega), hcont]
    simp [hgood, heq]
  · rw [if_neg (by omega), hcont]
    simp [hgood]
    omega

/-- A one-header batch that does not chain from the anchor. -/
def badBatchEx : List HeaderRecord := [{ hash := 5, prev := 99, height := 1, chainWork := 1 }]

/-- Claim C7 counterexample: a batch smaller than the maximum that breaks
continuity does not transition to Synced — it is discarded with the
non-continuous-headers violation — so the size trichotomy of the claim does
not hold for every received batch. -/
theorem handleHeadersBatch_noncontinuous_counterexample :
    badBatchEx.length < MAX_HEADERS_COUNT ∧
    handleHeadersBatch MAX_HEADERS_COUNT (fun _ => none) 1 badBatchEx =
      ⟨.Idle, some ("non-continuous-headers", 20), true, none, false⟩ ∧
    (handleHeadersBatch MAX_HEADERS_COUNT (fun _ => none) 1 badBatchEx).phase ≠
      SyncPhase.Synced := by decide

/-- A continuous three-header batch chaining from anchor 1 (hashes 701-703). -/
def goodBatchEx : List HeaderRecord := mkChain 700 1 0 0 3

/-- Claim C7 witness, one concrete instance per case: the three-header batch
over a maximum of 2 is discarded as oversized even though it would also break
no continuity; the discontinuous one-header batch is discarded with the
non-continuous-headers violation; the continuous batch under an invalid-pow
verdict is discarded with the invalid-pow violation and the connection
terminated; with the maximum set to the batch length the state machine
requests a continuation anchored at the last accepted hash (703); with the
protocol maximum of 2000 the same batch transitions to Synced. -/
theorem handleHeadersBatch_size_witness :
    handleHeadersBatch 2 (fun _ => none) 1 goodBatchEx =
      ⟨.Idle, some ("oversized-headers", 20), true, none, false⟩ ∧
    handleHeadersBatch MAX_HEADERS_COUNT (fun _ => none) 1 badBatchEx =
      ⟨.Idle, some ("non-continuous-headers", 20), true, none, false⟩ ∧
    handleHeadersBatch MAX_HEADERS_COUNT (fun _ => some ValError.InvalidPoW) 1 goodBatchEx =
      ⟨.Disconnected, some ("invalid-pow", 100), true, none, true⟩ ∧
    handleHeadersBatch 3 (fun _ => none) 1 goodBatchEx =
      ⟨.ReceivingHeaders, none, false, some 703, false⟩ ∧
    handleHeadersBatch MAX_HEADERS_COUNT (fun _ => none) 1 goodBatchEx =
      ⟨.Synced, none, false, none, false⟩ := by
  refine ⟨?_, ?_, ?_, ?_, ?_⟩
  · exact (handleHeadersBatch_size_spec 2 1 (fun _ => none) goodBatchEx).1
      (by decide)
  · exact (handleHeadersBatch_size_spec MAX_HEADERS_COUNT 1 (fun _ => none)
      badBatchEx).2.1 (by decide) (by decide)
  · exact (handleHeadersBatch_size_spec MAX_HEADERS_COUNT 1
      (fun _ => some ValError.InvalidPoW) goodBatchEx).2.2.1
      (by decide) (by decide) (by decide)
  · rw [(handleHeadersBatch_size_spec 3 1 (fun _ => none) goodBatchEx).2.2.2.1
      (by decide) (by decide) (by decide)]
    rfl
  · exact (handleHeadersBatch_size_spec MAX_HEADERS_COUNT 1 (fun _ => none)
      goodBatchEx).2.2.2.2 (by decide) (by decide) (by decide)

/-- Claim C10: `TestNode.rpc` either returns a successfully parsed JSON value
or raises: it raises whenever the CLI subprocess exits nonzero, raises
whenever the CLI's stdout is not valid JSON, and any returned value is the
parse of stdout under a zero exit code — never the raw unparsed string. -/
theorem rpc_parses_or_raises (jsonLoads : String → Option JsonValue)
    (method : String) (result : CompletedProcess) :
    (result.returncode ≠ 0 →
      ∃ msg, TestNode_rpc jsonLoads method result = .error msg) ∧
    (jsonLoads result.procStdout = none →
      ∃ msg, TestNode_rpc jsonLoads method result = .error msg) ∧
    (∀ v, TestNode_rpc jsonLoads method result = .ok v →
      result.returncode = 0 ∧ jsonLoads result.procStdout = some v) := by
  unfold TestNode_rpc
  by_cases hc : result.returncode = 0
  · rcases hj : jsonLoads result.procStdout with _ | v <;> simp [hc, hj]
  · simp [hc]

/-- Claim C10 witness: with a failing CLI process (exit code 1) the call
raises, and with a zero exit code but unparseable stdout it also raises. -/
theorem rpc_parses_or_raises_witness :
    (∃ msg, TestNode_rpc (fun _ => none) "getinfo" ⟨1, "", "connection refused"⟩ =
      .error msg) ∧
    (∃ msg, TestNode_rpc (fun _ => none) "getinfo" ⟨0, "not json", ""⟩ =
      .error msg) :=
  ⟨(rpc_parses_or_raises (fun _ => none) "getinfo" ⟨1, "", "connection refused"⟩).1
      (by decide),
   (rpc_parses_or_raises (fun _ => none) "getinfo" ⟨0, "not json", ""⟩).2.1 rfl⟩

/-- Claim C3: `AddHeader` on a header whose hash is already present returns
`Duplicate` and changes nothing — the full node state, and in particular the
per-record cumulative-work values, the tip set, the active tip and all peer
scores, are identical before and after the call. -/
theorem addHeader_duplicate_idempotent (cfg : CoreConfig)
    (onReject : ValError → List Peer → List Peer) (ns : NodeState)
    (h : HeaderRecord) (hdup : containsHash ns.store h.hash = true) :
    addHeader cfg onReject ns h = (AddResult.Duplicate, ns) ∧
    (addHeader cfg onReject ns h).2.store.records.map (fun r => (r.hash, r.chainWork)) =
      ns.store.records.map (fun r => (r.hash, r.chainWork)) ∧
    tips (addHeader cfg onReject ns h).2.store = tips ns.store ∧
    (addHeader cfg onReject ns h).2.store.activeTip = ns.store.activeTip ∧
    (addHeader cfg onReject ns h).2.peers.map (fun p => (p.peerId, p.score)) =
      ns.peers.map (fun p => (p.peerId, p.score)) := by
  have he : addHeader cfg onReject ns h = (AddResult.Duplicate, ns) := by
    unfold addHeader
    rw [if_pos hdup]
  exact ⟨he, by rw [he], by rw [he], by rw [he], by rw [he]⟩

/-- A node whose store holds only the genesis record, with one peer. -/
def genesisNodeEx : NodeState :=
  ⟨⟨[genesisRecord], genesisHash, some 100⟩, [], [initPeer 0 false]⟩

/-- Claim C3 witness: re-adding the genesis record to a store that already
holds it returns `Duplicate` and leaves the state untouched. -/
theorem addHeader_duplicate_witness :
    addHeader regtestConfig onRejectNop genesisNodeEx genesisRecord =
      (AddResult.Duplicate, genesisNodeEx) :=
  (addHeader_duplicate_idempotent regtestConfig onRejectNop genesisNodeEx
    genesisRecord (by decide)).1

/-- Claim C4: snapshot-then-reload is a round trip on the full chain state:
for every store, persisting and restoring reconstructs an identical store —
in particular an identical active tip (hash and height) and an identical set
of non-active fork candidates — including the concrete store of the
persistence test after its reorg from the height-15 tip to the height-20
tip. -/
theorem snapshot_roundtrip :
    (∀ s : HeaderStore, loadSnapshot s.suspiciousReorgDepth (saveSnapshot s) = s) ∧
    (∀ s : HeaderStore,
      (loadSnapshot s.suspiciousReorgDepth (saveSnapshot s)).activeTip = s.activeTip ∧
      activeTipHeight (loadSnapshot s.suspiciousReorgDepth (saveSnapshot s)) =
        activeTipHeight s ∧
      tips (loadSnapshot s.suspiciousReorgDepth (saveSnapshot s)) = tips s ∧
      forkCandidates (loadSnapshot s.suspiciousReorgDepth (saveSnapshot s)) =
        forkCandidates s) ∧
    (applySelector (reorgStore (some 100))).activeTip = 310 ∧
    activeTipHeight (applySelector (reorgStore (some 100))) = some 20 ∧
    loadSnapshot (some 100) (saveSnapshot (applySelector (reorgStore (some 100)))) =
      applySelector (reorgStore (some 100)) := by
  have hround : ∀ s : HeaderStore,
      loadSnapshot s.suspiciousReorgDepth (saveSnapshot s) = s := by
    intro s
    cases s
    rfl
  refine ⟨hround, fun s => ?_, by decide, by decide, by decide⟩
  rw [hround s]
  exact ⟨rfl, rfl, rfl, rfl⟩

/-- The Chain Selector never touches the record list. -/
lemma applySelector_records (s : HeaderStore) :
    (applySelector s).records = s.records := by
  unfold applySelector
  rcases hb : bestTip s with _ | cand
  · rfl
  · by_cases hc : cand.hash = s.activeTip
    · simp [hc]
    · rcases hd : s.suspiciousReorgDepth with _ | n
      · simp [hc]
      · by_cases hn : n ≤ reorgDepth s cand.hash <;> simp [hc, hn]

/-- The tip set only depends on the record list, so the Chain Selector
preserves it. -/
lemma applySelector_tips (s : HeaderStore) : tips (applySelector s) = tips s := by
  unfold tips
  rw [applySelector_records]

/-- The fold computing the best tip only ever returns a list element or its
starting accumulator. -/
lemma bestFold_mem (l : List HeaderRecord) :
    ∀ (acc : Option HeaderRecord) (r : HeaderRecord),
      l.foldl
        (fun acc t =>
          match acc with
          | none => some t
          | some b => if b.chainWork < t.chainWork then some t else some b)
        acc = some r →
      r ∈ l ∨ acc = some r := by
  induction l with
  | nil => intro acc r hr; exact Or.inr hr
  | cons a t ih =>
    intro acc r hr
    rcases ih _ r hr with hm | hacc
    · exact Or.inl (List.mem_cons_of_mem _ hm)
    · rcases acc with _ | b
      · simp only at hacc
        exact Or.inl (by rw [← Option.some.inj hacc]; exact List.mem_cons_self _ _)
      · by_cases hw : b.chainWork < a.chainWork
        · simp only [hw, if_pos] at hacc
          exact Or.inl (by rw [← Option.some.inj hacc]; exact List.mem_cons_self _ _)
        · simp only [hw] at hacc
          exact Or.inr hacc

/-- The candidate best tip is a member of the tip set. -/
lemma bestTip_mem (s : HeaderStore) (r : HeaderRecord) (h : bestTip s = some r) :
    r ∈ tips s := by
  rcases bestFold_mem (tips s) none r h with hm | hacc
  · exact hm
  · cases hacc

/-- Claim C1: when the candidate best tip differs from the active tip, the
Chain Selector refuses the reorg exactly when a threshold N is configured and
the required disconnection depth is ≥ N (the store, hence the active tip, is
unchanged and the candidate remains stored as a non-active fork candidate),
and adopts the candidate exactly when the depth is below any configured
threshold (in particular when none is set); the record list and tip set are
never modified. -/
theorem chainSelector_threshold_spec (s : HeaderStore) (cand : HeaderRecord)
    (hbest : bestTip s = some cand) (hne : cand.hash ≠ s.activeTip) :
    ((applySelector s).activeTip = s.activeTip ↔
      ∃ n, s.suspiciousReorgDepth = some n ∧ n ≤ reorgDepth s cand.hash) ∧
    ((applySelector s).activeTip = cand.hash ↔
      ∀ n, s.suspiciousReorgDepth = some n → reorgDepth s cand.hash < n) ∧
    (∀ n, s.suspiciousReorgDepth = some n → n ≤ reorgDepth s cand.hash →
      applySelector s = s ∧ cand ∈ forkCandidates (applySelector s)) ∧
    tips (applySelector s) = tips s := by
  have hmem : cand ∈ forkCandidates s := by
    unfold forkCandidates
    rw [List.mem_filter]
    exact ⟨bestTip_mem s cand hbest, by simp [hne]⟩
  rcases hd : s.suspiciousReorgDepth with _ | n
  · have hsel : applySelector s = { s with activeTip := cand.hash } := by
      unfold applySelector
      rw [hbest]
      simp [hne, hd]
    rw [hsel, hd]
    refine ⟨?_, by simp, ?_, rfl⟩
    · simp only [iff_false]
      constructor
      · intro hcontra
        exact absurd hcontra hne
      · rintro ⟨m, hm, _⟩
        cases hm
    · intro m hm
      cases hm
  · by_cases hn : n ≤ reorgDepth s cand.hash
    · have hsel : applySelector s = s := by
        unfold applySelector
        rw [hbest]
        simp [hne, hd, hn]
      rw [hsel]
      refine ⟨?_, ?_, ?_, rfl⟩
      · simp only [true_iff]
        exact ⟨n, rfl, hn⟩
      · constructor
        · intro hcontra
          exact absurd hcontra.symm hne
        · intro hall
          have := hall n rfl
          omega
      · intro m hm _
        cases hm
        exact ⟨rfl, hmem⟩
    · have hsel : applySelector s = { s with activeTip := cand.hash } := by
        unfold applySelector
        rw [hbest]
        simp [hne, hd, hn]
      rw [hsel, hd]
      refine ⟨?_, ?_, ?_, rfl⟩
      · constructor
        · intro hcontra
          exact absurd hcontra hne
        · rintro ⟨m, hm, hle⟩
          cases hm
          omega
      · simp only [true_iff]
        intro m hm
        cases hm
        omega
      · intro m hm hle
        cases hm
        omega

/-- The competing height-20 tip of the threshold-gated reorg scenario. -/
def cand310 : HeaderRecord :=
  { hash := 310, prev := 309, height := 20, chainWork := 20 }

/-- Claim C1 witness: the concrete 5-block reorg of the suspicious-reorg test
is adopted under threshold 6 and refused under threshold 5, at the computed
depth of exactly 5 disconnected blocks. -/
theorem chainSelector_threshold_witness :
    (applySelector (reorgStore (some 6))).activeTip = 310 ∧
    (applySelector (reorgStore (some 5))).activeTip = 205 ∧
    reorgDepth (reorgStore (some 5)) 310 = 5 := by
  have h6 := chainSelector_threshold_spec (reorgStore (some 6)) cand310
    (by decide) (by decide)
  have h5 := chainSelector_threshold_spec (reorgStore (some 5)) cand310
    (by decide) (by decide)
  refine ⟨?_, ?_, by decide⟩
  · exact h6.2.1.mpr (fun n hn => by cases hn; decide)
  · exact h5.1.mpr ⟨5, rfl, by decide⟩

set_option maxRecDepth 16000 in
/-- Claim C5: three nodes seeded with chains of heights 5, 10 and 15 on a
shared genesis, once each has ingested the other two chains, all select the
height-15 tip (hash 615) as their active tip: the maximum-cumulative-work
chain wins on every node. -/
theorem forkResolution_converges :
    node0Final.store.activeTip = tip15Hash ∧
    node1Final.store.activeTip = tip15Hash ∧
    node2Final.store.activeTip = tip15Hash ∧
    activeTipHeight node0Final.store = some 15 ∧
    activeTipHeight node1Final.store = some 15 ∧
    activeTipHeight node2Final.store = some 15 ∧
    (chain15.getLastD genesisRecord).hash = tip15Hash := by decide

end CoinbaseChain
